import Mathlib

/-!
# Script Vault — verification of the spec against `src/scripts/script-vault.js`

Shallow embedding of the Script Vault module (a Foundry-style plugin that
stores named user scripts, runs them on demand or at world startup, and
ships a bundled "String Trap System" script).  JS objects used as
string-keyed maps are embedded as association lists (`List (String × _)`);
JS timestamps (`Date.now()`) are explicit `Nat` parameters threaded into the
operations that stamp them; script execution (`new Function` + `await`) is
an oracle parameter `exec : String → Except String Unit` giving, for a code
text, either success or a thrown error's message.
-/

namespace ScriptVault

/-- JS `a || b` on an optional numeric field: `undefined` and `0` are falsy. -/
def jsOrNat (o : Option Nat) (dflt : Nat) : Nat :=
  match o with
  | some n => if n = 0 then dflt else n
  | none => dflt

/-- First-occurrence lookup in a string-keyed association list
(JS `obj[key]` read). -/
def lookupKey {α : Type} (l : List (String × α)) (k : String) : Option α :=
  match l with
  | [] => none
  | (k', v) :: rest => if k' = k then some v else lookupKey rest k

/-- JS `obj[key] = v`: overwrite in place when the key exists, else append
(JS object property order: existing keys keep their slot, new keys go last). -/
def setKey {α : Type} (l : List (String × α)) (k : String) (v : α) : List (String × α) :=
  match l with
  | [] => [(k, v)]
  | (k', v') :: rest => if k' = k then (k, v) :: rest else (k', v') :: setKey rest k v

/-- JS `delete obj[key]`. -/
def removeKey {α : Type} (l : List (String × α)) (k : String) : List (String × α) :=
  l.filter (fun p => p.1 ≠ k)

/-- JS `indexOf` + `splice(idx, 1)`: remove the first occurrence only. -/
def spliceOut (l : List String) (k : String) : List String :=
  match l with
  | [] => []
  | x :: xs => if x = k then xs else x :: spliceOut xs k

/-- JS `arr[indexOf old] = new`: replace the first occurrence of `old`
in place, keeping its position. -/
def replaceFirst (l : List String) (old new : String) : List String :=
  match l with
  | [] => []
  | x :: xs => if x = old then new :: xs else x :: replaceFirst xs old new

/-- Helper for `jsSetDedup`: walk the list keeping the first occurrence of
each element, tracking the elements already emitted (a JS `Set`'s
insertion-order contents). -/
def jsSetDedupAux (seen : List String) : List String → List String
  | [] => []
  | x :: xs =>
    if x ∈ seen then jsSetDedupAux seen xs
    else x :: jsSetDedupAux (x :: seen) xs

/-- JS `[...new Set(l)]`: deduplicate keeping first occurrences in order. -/
def jsSetDedup (l : List String) : List String :=
  jsSetDedupAux [] l

/-- A stored script record (`scripts[name] = { name, code, description,
isStartup, createdAt, updatedAt }`).  `createdAt`/`updatedAt` are `Option`
because the default-seeded record carries no `updatedAt` and imported
records may carry neither. -/
structure ScriptRecord where
  name : String
  code : String
  description : String
  isStartup : Bool
  createdAt : Option Nat
  updatedAt : Option Nat
  deriving Repr, DecidableEq

/-- The persisted world-scoped settings the module owns: the `scripts`
mapping, the ordered `startupScripts` list and the `startupEnabled` flag. -/
structure VaultState where
  scripts : List (String × ScriptRecord)
  startupScripts : List String
  startupEnabled : Bool
  deriving Repr, DecidableEq

/-- `ScriptVault.getScripts()`. -/
def getScripts (s : VaultState) : List (String × ScriptRecord) :=
  s.scripts

/-- `ScriptVault.getScript(name)`. -/
def getScript (s : VaultState) (name : String) : Option ScriptRecord :=
  lookupKey s.scripts name

/-- `ScriptVault.isStartupEnabled(name)` (membership in the startup list). -/
def isStartupEnabled (s : VaultState) (name : String) : Bool :=
  s.startupScripts.contains name

/-- `ScriptVault.enableStartup(name)`: append unless already present. -/
def enableStartup (s : VaultState) (name : String) : VaultState :=
  if s.startupScripts.contains name then s
  else { s with startupScripts := s.startupScripts ++ [name] }

/-- `ScriptVault.disableStartup(name)`: splice out the first occurrence
when present. -/
def disableStartup (s : VaultState) (name : String) : VaultState :=
  { s with startupScripts := spliceOut s.startupScripts name }

/-- `ScriptVault.toggleStartup(name)`: returns the new membership state. -/
def toggleStartup (s : VaultState) (name : String) : Bool × VaultState :=
  if isStartupEnabled s name then (false, disableStartup s name)
  else (true, enableStartup s name)

/-- The JS `existingScript?.createdAt || Date.now()` expression:
`undefined` (no record / no field) and `0` are both falsy. -/
def createdAtStamp (existing : Option ScriptRecord) (now : Nat) : Nat :=
  match existing with
  | some r => jsOrNat r.createdAt now
  | none => now

/-- `ScriptVault.saveScript(name, code, description, isStartup)` at clock
reading `now`: insert-or-overwrite the record, preserving `createdAt`,
stamping `updatedAt`, then synchronize startup membership with `isStartup`.
Returns the persisted record together with the new state. -/
def saveScript (s : VaultState) (name code description : String)
    (isStartup : Bool) (now : Nat) : ScriptRecord × VaultState :=
  let record : ScriptRecord :=
    { name := name, code := code, description := description,
      isStartup := isStartup,
      createdAt := some (createdAtStamp (getScript s name) now),
      updatedAt := some now }
  let s1 : VaultState := { s with scripts := setKey s.scripts name record }
  let s2 := if isStartup then enableStartup s1 name else disableStartup s1 name
  (record, s2)

/-- `ScriptVault.deleteScript(name)`: drop the record, then
`disableStartup(name)`.  Total — no error path exists in the source. -/
def deleteScript (s : VaultState) (name : String) : VaultState :=
  disableStartup { s with scripts := removeKey s.scripts name } name

/-- `ScriptVault.renameScript(oldName, newName)`: when the old record
exists, re-key it (copy under the new name, delete the old key) and patch
the startup list entry in place at its old position. -/
def renameScript (s : VaultState) (oldName newName : String) : VaultState :=
  match lookupKey s.scripts oldName with
  | none => s
  | some r =>
    let scripts1 := setKey s.scripts newName { r with name := newName }
    let scripts2 := removeKey scripts1 oldName
    let startup1 :=
      if s.startupScripts.contains oldName then
        replaceFirst s.startupScripts oldName newName
      else s.startupScripts
    { s with scripts := scripts2, startupScripts := startup1 }

/-- A UI notification (`ui.notifications.info/warn/error`). -/
inductive Notif where
  | info (msg : String)
  | warn (msg : String)
  | error (msg : String)
  deriving Repr, DecidableEq

/-- What `new Function('return (async () => {' + script.code + '\n})()')`
builds: a function value with a (here empty) declared parameter list and a
body text.  `new Function` receives only the body string, so the function
declares no parameters at all. -/
structure SynthesizedFunction where
  params : List String
  body : String
  deriving Repr, DecidableEq

/-- The synthesis step of `ScriptVault.run`: wrap the stored code text in
`return (async () => \x7b <code> \n\x7d)()` and declare no parameters. -/
def synthesize (code : String) : SynthesizedFunction :=
  { params := [],
    body := "return (async () => \x7b" ++ code ++ "\n\x7d)()" }

/-- `run` also calls the synthesized function with no arguments
(`asyncFunc()`), so nothing is bound even dynamically. -/
def runCallArguments (_code : String) : List String := []

/-- The outcome of `ScriptVault.run`: the returned boolean, the
notifications raised, and the console log lines, in order. -/
structure RunResult where
  ok : Bool
  notifs : List Notif
  logs : List String
  deriving Repr, DecidableEq

/-- `ScriptVault.run(name)` with execution oracle `exec` (the behaviour of
evaluating a code text: success, or the message of the error it throws —
covering both synthesis-time and execution-time errors, which sit inside
the same `try`).  Not-found: error notification, `false`.  Thrown error:
caught here, logged with the script name, error notification carrying the
message, `false`.  Success: `true`. -/
def run (exec : String → Except String Unit) (s : VaultState) (name : String) :
    RunResult :=
  match getScript s name with
  | none =>
    { ok := false,
      notifs := [Notif.error ("Script \x22" ++ name ++ "\x22 not found!")],
      logs := ["Script Vault | Script not found: " ++ name] }
  | some script =>
    match exec script.code with
    | Except.ok _ =>
      { ok := true, notifs := [],
        logs := ["Script Vault | Executing: " ++ name,
                 "Script Vault | Completed: " ++ name] }
    | Except.error msg =>
      { ok := false,
        notifs := [Notif.error ("Error in script \x22" ++ name ++ "\x22: " ++ msg)],
        logs := ["Script Vault | Executing: " ++ name,
                 "Script Vault | Error in \x22" ++ name ++ "\x22: " ++ msg] }

/-- Outcome of `ScriptVault.runStartupScripts`: which names were actually
passed to `run`, the success/failure tallies, and the notifications
(per-script error notifications first, then the summaries). -/
structure OrchResult where
  executed : List String
  successCount : Nat
  failCount : Nat
  notifs : List Notif
  deriving Repr, DecidableEq

/-- One loop iteration of `runStartupScripts`: look the name up; when
present, `run` it and tally by its boolean; when absent (dangling registry
entry), count a failure and continue. -/
def startupStep (exec : String → Except String Unit) (s : VaultState)
    (acc : OrchResult) (name : String) : OrchResult :=
  match getScript s name with
  | some _ =>
    let r := run exec s name
    if r.ok then
      { acc with executed := acc.executed ++ [name],
                 successCount := acc.successCount + 1,
                 notifs := acc.notifs ++ r.notifs }
    else
      { acc with executed := acc.executed ++ [name],
                 failCount := acc.failCount + 1,
                 notifs := acc.notifs ++ r.notifs }
  | none => { acc with failCount := acc.failCount + 1 }

/-- The success summary (`ui.notifications.info`) emitted when
`successCount > 0`. -/
def loadedSummary (n : Nat) : Notif :=
  Notif.info ("Script Vault: " ++ toString n ++ " startup script(s) loaded")

/-- The failure summary (`ui.notifications.warn`) emitted when
`failCount > 0`. -/
def failedSummary (n : Nat) : Notif :=
  Notif.warn ("Script Vault: " ++ toString n ++ " startup script(s) failed")

/-- `ScriptVault.runStartupScripts()`: gate on `game.user.isGM`, gate on
the world `startupEnabled` setting, early-return on an empty registry, then
iterate the registry in order, and finally emit at most one summary
notification per kind. -/
def runStartupScripts (exec : String → Except String Unit) (gm : Bool)
    (s : VaultState) : OrchResult :=
  if ¬gm then { executed := [], successCount := 0, failCount := 0, notifs := [] }
  else if ¬s.startupEnabled then
    { executed := [], successCount := 0, failCount := 0, notifs := [] }
  else if s.startupScripts.isEmpty then
    { executed := [], successCount := 0, failCount := 0, notifs := [] }
  else
    let r := s.startupScripts.foldl (startupStep exec s)
      { executed := [], successCount := 0, failCount := 0, notifs := [] }
    { r with notifs :=
        r.notifs
          ++ (if r.successCount > 0 then [loadedSummary r.successCount] else [])
          ++ (if r.failCount > 0 then [failedSummary r.failCount] else []) }

/-- The parsed `data.startupScripts` field when it is truthy.  JS array
spread `[...data.startupScripts]` succeeds on any iterable (an array of
identities; a string would spread to its characters — still a list) and
throws a `TypeError` on a truthy non-iterable value (a number, a plain
object, `true`); `notIterable` carries that error's message. -/
inductive JsStartupField where
  | list (l : List String)
  | notIterable (msg : String)
  deriving Repr, DecidableEq

/-- A successfully parsed import payload.  `none` fields model JS-falsy
`data.scripts` / `data.startupScripts` (absent, null, …) which skip the
corresponding merge.  For `scripts`, object spread `{...data.scripts}`
never throws (a truthy non-object spreads to no properties, i.e.
`some []`), so a plain optional mapping is faithful; `startupScripts`
needs `JsStartupField` because its spread can throw mid-operation. -/
structure ImportData where
  scripts : Option (List (String × ScriptRecord))
  startupScripts : Option JsStartupField
  deriving Repr, DecidableEq

/-- JS spread `{...current, ...imported}`: every imported key overwrites or
is appended, in imported order. -/
def spreadMerge (current imported : List (String × ScriptRecord)) :
    List (String × ScriptRecord) :=
  imported.foldl (fun acc p => setKey acc p.1 p.2) current

/-- `ScriptVault.importScripts(file)`.  The payload argument is
`Except.error msg` when `file.text()` / `JSON.parse` throw (before any
mutation) and `Except.ok data` otherwise.  One `try` wraps the whole body:
a parse failure is caught and reported with the state untouched, but a
truthy non-iterable `data.startupScripts` throws only at the
`[...data.startupScripts]` spread — after the scripts merge was already
persisted — so that error is caught and reported with the scripts merge
kept and the registry untouched. -/
def importScripts (s : VaultState) (payload : Except String ImportData) :
    Bool × VaultState × List Notif :=
  match payload with
  | Except.error msg =>
    (false, s, [Notif.error ("Failed to import scripts: " ++ msg)])
  | Except.ok data =>
    let s1 :=
      match data.scripts with
      | some imported => { s with scripts := spreadMerge s.scripts imported }
      | none => s
    match data.startupScripts with
    | some (JsStartupField.list imported) =>
      (true,
        { s1 with startupScripts := jsSetDedup (s1.startupScripts ++ imported) },
        [Notif.info "Scripts imported successfully!"])
    | some (JsStartupField.notIterable msg) =>
      (false, s1, [Notif.error ("Failed to import scripts: " ++ msg)])
    | none =>
      (true, s1, [Notif.info "Scripts imported successfully!"])

end ScriptVault

namespace StringTrap

/-!
Embedding of the bundled "String Trap System v4" script (the string
returned by `ScriptVault._getStringTrapSystemCode`).  Coordinates are `ℚ`
(idealizing JS floats); dice rolls are oracles (`damageRoll` maps a formula
text to the rolled total; `saveTotal` is the saving-throw total, whichever
of `rollAbilitySave` or the manual-roll fallback produced it).  The
`try applyDamage catch hp-update` pairs are one `applyDamage` observable:
both branches subtract the same rolled total.
-/

/-- JS truthiness of an optional string field (`undefined` and `""` falsy). -/
def jsTruthyStr (o : Option String) : Bool :=
  match o with
  | some s => !(s = "")
  | none => false

/-- JS truthiness of an optional numeric field (`undefined` and `0` falsy). -/
def jsTruthyQ (o : Option ℚ) : Bool :=
  match o with
  | some q => !(q = 0)
  | none => false

/-- JS `a || b` on an optional numeric field. -/
def jsOrQ (o : Option ℚ) (dflt : ℚ) : ℚ :=
  match o with
  | some q => if q = 0 then dflt else q
  | none => dflt

/-- JS `a || b` on an optional `Int` field (the `flags.saveDC || 15`). -/
def jsOrInt (o : Option Int) (dflt : Int) : Int :=
  match o with
  | some n => if n = 0 then dflt else n
  | none => dflt

/-- JS string concatenation of a possibly-undefined value. -/
def jsShowOptStr (o : Option String) : String :=
  match o with
  | some s => s
  | none => "undefined"

/-- The `flags["string-trap"]` object on a trap tile. -/
structure TrapFlags where
  isActive : Bool
  type : String
  damage : Option String
  damageType : String
  explosionSize : Option ℚ
  condition : Option String
  saveDC : Option Int
  saveAbility : Option String
  isDot : Bool
  deriving Repr, DecidableEq

/-- A placed tile document (`tile.document`), with its optional
`string-trap` flags. -/
structure TileDoc where
  id : String
  x : ℚ
  y : ℚ
  width : ℚ
  height : ℚ
  stringTrap : Option TrapFlags
  deriving Repr, DecidableEq

/-- The `flags["string-trap"]` object stored on a standing DoT effect. -/
structure DotFlags where
  dotTileId : String
  damage : String
  damageType : String
  deriving Repr, DecidableEq

/-- An `ActiveEffect` on an actor, as far as the trap script reads it. -/
structure StandingEffect where
  stringTrap : Option DotFlags
  deriving Repr, DecidableEq

/-- An actor, as far as the trap script reads it. -/
structure ActorRef where
  name : String
  effects : List StandingEffect
  deriving Repr, DecidableEq

/-- A token placeable on the canvas (`canvas.tokens.placeables` element):
position, document size, optional actor. -/
structure TokenPlaceable where
  id : String
  x : ℚ
  y : ℚ
  docWidth : ℚ
  docHeight : ℚ
  actor : Option ActorRef
  deriving Repr, DecidableEq

/-- The token document passed to the `updateToken` hook. -/
structure TokenDoc where
  id : String
  name : String
  x : ℚ
  y : ℚ
  width : Option ℚ
  height : Option ℚ
  deriving Repr, DecidableEq

/-- A combatant (`combat.combatant`). -/
structure Combatant where
  token : Option TokenDoc
  tokenId : String
  deriving Repr, DecidableEq

/-- The combat object passed to the `combatTurn` hook. -/
structure Combat where
  started : Bool
  combatant : Option Combatant
  deriving Repr, DecidableEq

/-- Every observable action the trap script performs. -/
inductive TrapAction where
  | notifyWarn (msg : String)
  | notifyInfo (msg : String)
  | notifyError (msg : String)
  | rollChat (formula : String) (total : Int) (flavor : String)
  | chat (content : String)
  | applyDamage (tokenId : String) (amount : Int)
  | addEffect (tokenId : String) (effectName : String) (dotTileId : Option String)
  | removeEffect (tokenId : String) (dotTileId : String)
  | deactivateTile (tileId : String)
  deriving Repr, DecidableEq

/-- `t.document?.flags?.["string-trap"]?.isActive` as the trap filter. -/
def isActiveTrap (t : TileDoc) : Bool :=
  match t.stringTrap with
  | some f => f.isActive
  | none => false

/-- `canvas.tokens.get(id)`. -/
def tokensGet (tokens : List TokenPlaceable) (id : String) : Option TokenPlaceable :=
  tokens.find? (fun t => t.id == id)

/-- `token.actor.effects.find(e => e.flags?.["string-trap"]?.dotTileId === tile.id)`
as a membership test. -/
def hasDotEffect (a : ActorRef) (tileId : String) : Bool :=
  a.effects.any (fun e =>
    match e.stringTrap with
    | some f => f.dotTileId == tileId
    | none => false)

/-- `const radius = (flags.explosionSize * gs) / 2 * 1.5`. -/
def explosionRadius (explosionSize gs : ℚ) : ℚ :=
  explosionSize * gs / 2 * (3 / 2)

/-- `const tcx = t.x + (t.document.width * gs) / 2`. -/
def tokenCenterX (gs : ℚ) (t : TokenPlaceable) : ℚ :=
  t.x + t.docWidth * gs / 2

/-- `const tcy = t.y + (t.document.height * gs) / 2`. -/
def tokenCenterY (gs : ℚ) (t : TokenPlaceable) : ℚ :=
  t.y + t.docHeight * gs / 2

/-- `const cx = tile.document.x + tile.document.width / 2`. -/
def tileCenterX (tile : TileDoc) : ℚ :=
  tile.x + tile.width / 2

/-- `const cy = tile.document.y + tile.document.height / 2`. -/
def tileCenterY (tile : TileDoc) : ℚ :=
  tile.y + tile.height / 2

/-- The landmine inclusion test:
`Math.sqrt(Math.pow(tcx - cx, 2) + Math.pow(tcy - cy, 2)) <= radius`. -/
def inBlast (gs cx cy radius : ℚ) (t : TokenPlaceable) : Prop :=
  Real.sqrt (((tokenCenterX gs t - cx : ℚ) : ℝ) ^ 2
      + ((tokenCenterY gs t - cy : ℚ) : ℝ) ^ 2)
    ≤ ((radius : ℚ) : ℝ)

/-- The square-root comparison is equivalent to a rational comparison of
squares (with nonnegativity of the radius), so `inBlast` is decidable and
the engine's token filter stays executable. -/
instance inBlastDecidable (gs cx cy radius : ℚ) (t : TokenPlaceable) :
    Decidable (inBlast gs cx cy radius t) :=
  decidable_of_iff
    (0 ≤ radius ∧
      (tokenCenterX gs t - cx) ^ 2 + (tokenCenterY gs t - cy) ^ 2
        ≤ radius ^ 2)
    (by
      unfold inBlast
      set a : ℚ := tokenCenterX gs t - cx with ha
      set b : ℚ := tokenCenterY gs t - cy with hb
      have hs : (0 : ℝ) ≤ (a : ℝ) ^ 2 + (b : ℝ) ^ 2 := by positivity
      constructor
      · rintro ⟨hr, hsq⟩
        have hr' : (0 : ℝ) ≤ ((radius : ℚ) : ℝ) := by exact_mod_cast hr
        have hsq' : (a : ℝ) ^ 2 + (b : ℝ) ^ 2 ≤ ((radius : ℚ) : ℝ) ^ 2 := by
          exact_mod_cast hsq
        calc Real.sqrt ((a : ℝ) ^ 2 + (b : ℝ) ^ 2)
            ≤ Real.sqrt (((radius : ℚ) : ℝ) ^ 2) := Real.sqrt_le_sqrt hsq'
          _ = ((radius : ℚ) : ℝ) := Real.sqrt_sq hr'
      · intro h
        have hr : (0 : ℝ) ≤ ((radius : ℚ) : ℝ) :=
          le_trans (Real.sqrt_nonneg _) h
        have hsq : (a : ℝ) ^ 2 + (b : ℝ) ^ 2 ≤ ((radius : ℚ) : ℝ) ^ 2 := by
          have h2 := pow_le_pow_left₀ (Real.sqrt_nonneg _) h 2
          rwa [Real.sq_sqrt hs] at h2
        constructor
        · exact_mod_cast hr
        · exact_mod_cast hsq)

/-- `canvas.tokens.placeables.filter(t => Math.sqrt(...) <= radius)` for a
landmine centred on `tile`. -/
def landmineHitTokens (gs : ℚ) (tile : TileDoc) (explosionSize : ℚ)
    (tokens : List TokenPlaceable) : List TokenPlaceable :=
  tokens.filter (fun t =>
    decide (inBlast gs (tileCenterX tile) (tileCenterY tile)
      (explosionRadius explosionSize gs) t))

/-- The landmine AoE branch: damage every hit token that has an actor, then
one aggregate chat message carrying the hit count. -/
def landmineActions (gs : ℚ) (tile : TileDoc) (flags : TrapFlags)
    (explosionSize : ℚ) (total : Int) (tokens : List TokenPlaceable) :
    List TrapAction :=
  let hits := landmineHitTokens gs tile explosionSize tokens
  (hits.filterMap (fun ht =>
    if ht.actor.isSome then some (TrapAction.applyDamage ht.id total) else none))
    ++ [TrapAction.chat
        ("<div style=\x22text-align:center;padding:10px;background:rgba(255,100,0,0.3);border:2px solid #ff4400;\x22><strong>💥 LANDMINE EXPLODES!</strong><br/>"
          ++ toString hits.length ++ " hit for " ++ toString total ++ " "
          ++ flags.damageType ++ "!</div>")]

/-- The `if (flags.damage)` branch of the entry handler: roll message, then
either the landmine AoE sub-branch or single-target damage on the
triggering token (when it resolves to an actor). -/
def damageActions (gs : ℚ) (tile : TileDoc) (flags : TrapFlags)
    (formula : String) (total : Int) (tokenDoc : TokenDoc)
    (tokens : List TokenPlaceable) : List TrapAction :=
  [TrapAction.rollChat formula total
      ("🕸️ " ++ flags.type ++ " - " ++ flags.damageType ++ " damage")]
    ++ (if flags.type == "Landmine Trap" && jsTruthyQ flags.explosionSize then
          landmineActions gs tile flags (flags.explosionSize.getD 0) total tokens
        else
          match tokensGet tokens tokenDoc.id with
          | some tk =>
            match tk.actor with
            | some _ =>
              [TrapAction.applyDamage tk.id total,
               TrapAction.chat
                 ("<div style=\x22text-align:center;padding:10px;background:rgba(255,100,0,0.2);border:2px solid #ff6600;\x22><strong>🕸️ "
                   ++ flags.type ++ "!</strong><br/>" ++ tokenDoc.name
                   ++ " takes " ++ toString total ++ " " ++ flags.damageType
                   ++ "!</div>")]
            | none => []
          | none => [])

/-- `const dc = flags.saveDC || 15`. -/
def effectiveSaveDC (saveDC : Option Int) : Int :=
  jsOrInt saveDC 15

/-- The `if (flags.condition === "paralyzed")` branch: with a resolvable
actor, compare the saving-throw total against the effective DC; strictly
below applies the paralyzed effect, otherwise the token resists. -/
def paralyzeActions (flags : TrapFlags) (tokenDoc : TokenDoc)
    (tokens : List TokenPlaceable) (saveTotal : Int) : List TrapAction :=
  if flags.condition == some "paralyzed" then
    match tokensGet tokens tokenDoc.id with
    | some tk =>
      match tk.actor with
      | some _ =>
        let dc := effectiveSaveDC flags.saveDC
        if saveTotal < dc then
          [TrapAction.addEffect tk.id "Paralyzed (String Trap)" none,
           TrapAction.notifyError (tokenDoc.name ++ " is PARALYZED!"),
           TrapAction.chat
             ("<div style=\x22text-align:center;padding:10px;background:rgba(0,255,136,0.2);border:2px solid #00ff88;\x22><strong>⚡ PARALYZED!</strong><br/>"
               ++ tokenDoc.name ++ " failed DC " ++ toString dc ++ " (rolled "
               ++ toString saveTotal ++ ")</div>")]
        else
          [TrapAction.notifyInfo
             (tokenDoc.name ++ " resisted! (rolled " ++ toString saveTotal ++ ")"),
           TrapAction.chat
             ("<div style=\x22text-align:center;padding:10px;background:rgba(0,200,0,0.1);border:2px solid #00cc00;\x22><strong>✅ RESISTED!</strong><br/>"
               ++ tokenDoc.name ++ " passed DC " ++ toString dc ++ " (rolled "
               ++ toString saveTotal ++ ")</div>")]
      | none => []
    | none => []
  else []

/-- The `if (flags.isDot)` entry branch: attach the standing DoT effect
tagged with the tile id unless the actor already carries one for this
tile. -/
def dotActions (flags : TrapFlags) (tile : TileDoc) (tokenDoc : TokenDoc)
    (tokens : List TokenPlaceable) : List TrapAction :=
  if flags.isDot then
    match tokensGet tokens tokenDoc.id with
    | some tk =>
      match tk.actor with
      | some actor =>
        if !hasDotEffect actor tile.id then
          [TrapAction.addEffect tk.id "🕸️ String Trap DoT" (some tile.id),
           TrapAction.chat
             ("<div style=\x22text-align:center;padding:10px;background:rgba(153,0,255,0.2);border:2px solid #9900ff;\x22><strong>🕸️ DoT Trap!</strong><br/>"
               ++ tokenDoc.name ++ " takes " ++ jsShowOptStr flags.damage ++ " "
               ++ flags.damageType ++ " each turn</div>")]
        else []
      | none => []
    | none => []
  else []

/-- Everything the entry edge (`!wasIn && isIn`) performs, in source
order: trigger warning, damage branch, paralyze branch, DoT branch, and
deactivation of non-DoT traps. -/
def entryActions (gs : ℚ) (tile : TileDoc) (flags : TrapFlags)
    (tokenDoc : TokenDoc) (tokens : List TokenPlaceable)
    (damageRoll : String → Int) (saveTotal : Int) : List TrapAction :=
  [TrapAction.notifyWarn (tokenDoc.name ++ " triggered " ++ flags.type ++ "!")]
    ++ (if jsTruthyStr flags.damage then
          damageActions gs tile flags (flags.damage.getD "")
            (damageRoll (flags.damage.getD "")) tokenDoc tokens
        else [])
    ++ paralyzeActions flags tokenDoc tokens saveTotal
    ++ dotActions flags tile tokenDoc tokens
    ++ (if !flags.isDot then [TrapAction.deactivateTile tile.id] else [])

/-- The exit edge (`wasIn && !isIn && flags.isDot`): remove the standing
DoT effect for this tile, when the token resolves to an actor carrying
one. -/
def exitActions (tile : TileDoc) (tokenDoc : TokenDoc)
    (tokens : List TokenPlaceable) : List TrapAction :=
  match tokensGet tokens tokenDoc.id with
  | some tk =>
    match tk.actor with
    | some actor =>
      if hasDotEffect actor tile.id then
        [TrapAction.removeEffect tk.id tile.id,
         TrapAction.notifyInfo (tokenDoc.name ++ " escaped the DoT trap!"),
         TrapAction.chat
           ("<div style=\x22text-align:center;padding:10px;background:rgba(0,200,0,0.1);border:2px solid #00cc00;\x22><strong>✅ Escaped!</strong><br/>"
             ++ tokenDoc.name ++ " left the DoT trap</div>")]
      else []
    | none => []
  | none => []

/-- One iteration of the `for (const tile of traps)` loop: read the old
containment flag, compute the axis-aligned overlap (edges exclusive),
store the new flag, and emit the entry/exit edge actions. -/
def trapTileStep (gs : ℚ) (tokenDoc : TokenDoc) (newX newY tokenW tokenH : ℚ)
    (tokens : List TokenPlaceable) (damageRoll : String → Int) (saveTotal : Int)
    (acc : List (String × Bool) × List TrapAction) (tile : TileDoc) :
    List (String × Bool) × List TrapAction :=
  match tile.stringTrap with
  | none => acc
  | some flags =>
    let key := tile.id ++ "-" ++ tokenDoc.id
    let wasIn := (ScriptVault.lookupKey acc.1 key).getD false
    let isIn : Bool :=
      !(decide (newX + tokenW ≤ tile.x) || decide (newX ≥ tile.x + tile.width)
        || decide (newY + tokenH ≤ tile.y) || decide (newY ≥ tile.y + tile.height))
    let m := ScriptVault.setKey acc.1 key isIn
    let entry :=
      if !wasIn && isIn then
        entryActions gs tile flags tokenDoc tokens damageRoll saveTotal
      else []
    let exits :=
      if wasIn && !isIn && flags.isDot then
        exitActions tile tokenDoc tokens
      else []
    (m, acc.2 ++ entry ++ exits)

/-- The `updateToken` hook handler.  `st` is the process-local
`stringTrapTokensInTraps` map keyed by `tileId ++ "-" ++ tokenId`; the
result is the updated map plus the observable actions, in order. -/
def updateTokenHook (gm : Bool) (gs : ℚ) (tiles : List TileDoc)
    (tokens : List TokenPlaceable) (tokenDoc : TokenDoc)
    (updX updY : Option ℚ) (damageRoll : String → Int) (saveTotal : Int)
    (st : List (String × Bool)) : List (String × Bool) × List TrapAction :=
  if updX.isNone && updY.isNone then (st, [])
  else if !gm then (st, [])
  else
    let newX := updX.getD tokenDoc.x
    let newY := updY.getD tokenDoc.y
    let tokenW := jsOrQ tokenDoc.width 1 * gs
    let tokenH := jsOrQ tokenDoc.height 1 * gs
    let traps := tiles.filter isActiveTrap
    if traps.isEmpty then (st, [])
    else
      traps.foldl
        (trapTileStep gs tokenDoc newX newY tokenW tokenH tokens damageRoll saveTotal)
        (st, [])

/-- The `combatTurn` hook handler: for every standing DoT effect on the
current combatant's actor, roll the stored formula afresh and apply it. -/
def combatTurnHook (gm : Bool) (combat : Combat)
    (tokens : List TokenPlaceable) (damageRoll : String → Int) :
    List TrapAction :=
  if !combat.started || !gm then []
  else
    match combat.combatant with
    | none => []
    | some cbt =>
      match cbt.token with
      | none => []
      | some _ =>
        match tokensGet tokens cbt.tokenId with
        | none => []
        | some tk =>
          match tk.actor with
          | none => []
          | some actor =>
            let dots := actor.effects.filter (fun e =>
              match e.stringTrap with
              | some f => !(f.dotTileId = "")
              | none => false)
            dots.foldl (fun acc e =>
              match e.stringTrap with
              | some f =>
                let total := damageRoll f.damage
                acc ++ [TrapAction.rollChat f.damage total
                          ("🕸️ DoT Trap - " ++ f.damageType ++ " damage"),
                        TrapAction.applyDamage tk.id total,
                        TrapAction.notifyWarn
                          (actor.name ++ " takes " ++ toString total ++ " "
                            ++ f.damageType ++ " DoT damage!")]
              | none => acc) []

end StringTrap

namespace ScriptVault

/-! ### Characterizations used in theorem statements -/

/-- Whether the startup loop tallies the registry entry `n` as a success:
its record exists and executing its code succeeds.  A dangling identity
(no record) is never a success. -/
def runOk (exec : String → Except String Unit) (s : VaultState) (n : String) :
    Bool :=
  match getScript s n with
  | some r =>
    match exec r.code with
    | Except.ok _ => true
    | Except.error _ => false
  | none => false

/-- Recognizes `ui.notifications.info` notifications (the success-summary
channel of the orchestrator; per-script failures use `error`). -/
def isInfoNotif (n : Notif) : Bool :=
  match n with
  | Notif.info _ => true
  | _ => false

/-- Recognizes `ui.notifications.warn` notifications (the failure-summary
channel of the orchestrator). -/
def isWarnNotif (n : Notif) : Bool :=
  match n with
  | Notif.warn _ => true
  | _ => false

end ScriptVault

/-! ### Concrete sample data for the witnesses -/

/-- Concrete store for the C3 witness. -/
def c3State : ScriptVault.VaultState :=
  { scripts := [("Boom",
      { name := "Boom", code := "throw new Error(5)", description := "",
        isStartup := false, createdAt := some 1, updatedAt := some 1 })],
    startupScripts := [],
    startupEnabled := true }

/-- Concrete store for the C2 witness: one valid startup identity
("Heal") and one dangling one ("Ghost"). -/
def c2State : ScriptVault.VaultState :=
  { scripts := [("Heal",
      { name := "Heal", code := "ctx.actor.heal()", description := "",
        isStartup := true, createdAt := some 1, updatedAt := some 1 })],
    startupScripts := ["Heal", "Ghost"],
    startupEnabled := true }

/-- Concrete record for the C5 samples. -/
def c5Record : ScriptVault.ScriptRecord :=
  { name := "A", code := "1+1", description := "",
    isStartup := true, createdAt := some 1, updatedAt := some 1 }

/-- Concrete state on which `renameScript` breaks the no-duplicates
invariant: both "A" and "B" are registered and "A" is renamed to "B". -/
def c5State : ScriptVault.VaultState :=
  { scripts := [("A", c5Record)], startupScripts := ["A", "B"],
    startupEnabled := true }

/-- Concrete token for the C8/C10 witnesses. -/
def c8Token : StringTrap.TokenPlaceable :=
  { id := "tok1", x := 0, y := 0, docWidth := 1, docHeight := 1,
    actor := some { name := "Hero", effects := [] } }

/-- Concrete trap flags for the C8 witness: a paralyze trap with DC 15. -/
def c8Flags : StringTrap.TrapFlags :=
  { isActive := true, type := "Paralyze Trap", damage := none,
    damageType := "none", explosionSize := none,
    condition := some "paralyzed", saveDC := some 15,
    saveAbility := some "dex", isDot := false }

/-- Concrete token document for the C8/C10 witnesses. -/
def c8TokenDoc : StringTrap.TokenDoc :=
  { id := "tok1", name := "Hero", x := 0, y := 0,
    width := some 1, height := some 1 }

/-- Concrete landmine tile for the C9 witness: zero-sized tile at the
origin, so its centre is `(0, 0)`. -/
def c9Tile : StringTrap.TileDoc :=
  { id := "mine", x := 0, y := 0, width := 0, height := 0,
    stringTrap := none }

/-- C9 witness token at distance 5 from the centre (effective radius 6). -/
def c9T1 : StringTrap.TokenPlaceable :=
  { id := "a", x := 5, y := 0, docWidth := 0, docHeight := 0,
    actor := some { name := "A", effects := [] } }

/-- C9 witness token at distance exactly 6 (the boundary). -/
def c9T2 : StringTrap.TokenPlaceable :=
  { id := "b", x := 6, y := 0, docWidth := 0, docHeight := 0,
    actor := some { name := "B", effects := [] } }

/-- C9 witness token at distance 7 (outside). -/
def c9T3 : StringTrap.TokenPlaceable :=
  { id := "c", x := 7, y := 0, docWidth := 0, docHeight := 0,
    actor := some { name := "C", effects := [] } }

/-- C6 witness: record colliding with the existing "Heal" identity. -/
def c6NewHeal : ScriptVault.ScriptRecord :=
  { name := "Heal", code := "ctx.actor.heal(2)", description := "v2",
    isStartup := true, createdAt := some 7, updatedAt := some 8 }

/-- C6 witness: record under a fresh identity. -/
def c6Fresh : ScriptVault.ScriptRecord :=
  { name := "Fresh", code := "1", description := "",
    isStartup := false, createdAt := some 9, updatedAt := some 9 }

/-- C6 witness payload: one colliding and one fresh script, plus startup
identities overlapping the existing registry. -/
def c6Data : ScriptVault.ImportData :=
  { scripts := some [("Heal", c6NewHeal), ("Fresh", c6Fresh)],
    startupScripts := some (ScriptVault.JsStartupField.list ["Ghost", "New"]) }

/-- C6 counterexample payload: parses fine, carries a valid scripts
mapping, but its `startupScripts` field is a truthy non-iterable value
(say the number `5`), so `[...data.startupScripts]` throws after the
scripts merge persisted. -/
def c6BadData : ScriptVault.ImportData :=
  { scripts := some [("Fresh", c6Fresh)],
    startupScripts := some
      (ScriptVault.JsStartupField.notIterable "data.startupScripts is not iterable") }

namespace ScriptVault

/-! ### Association-list and list lemmas -/

theorem lookup_setKey_self {α : Type} (l : List (String × α)) (k : String) (v : α) :
    lookupKey (setKey l k v) k = some v := by
  induction l with
  | nil => simp [setKey, lookupKey]
  | cons p rest ih =>
    by_cases h : p.1 = k
    · simp [setKey, lookupKey, h]
    · simp only [setKey, lookupKey]
      rw [if_neg h]
      simp [lookupKey, h, ih]

theorem lookup_setKey_ne {α : Type} (l : List (String × α)) (k k' : String) (v : α)
    (h : k ≠ k') : lookupKey (setKey l k v) k' = lookupKey l k' := by
  induction l with
  | nil => simp [setKey, lookupKey, h]
  | cons p rest ih =>
    by_cases hp : p.1 = k
    · have hp' : ¬p.1 = k' := fun hc => h (hp ▸ hc)
      simp [setKey, lookupKey, hp, h, hp']
    · simp [setKey, lookupKey, hp, ih]

theorem lookup_removeKey_self {α : Type} (l : List (String × α)) (k : String) :
    lookupKey (removeKey l k) k = none := by
  induction l with
  | nil => simp [removeKey, lookupKey]
  | cons p rest ih =>
    by_cases h : p.1 = k
    · simpa [removeKey, List.filter, h] using ih
    · simpa [removeKey, List.filter, h, lookupKey] using ih

theorem lookup_eq_none_of_not_mem_keys {α : Type} (l : List (String × α)) (k : String)
    (h : k ∉ l.map Prod.fst) : lookupKey l k = none := by
  induction l with
  | nil => simp [lookupKey]
  | cons p rest ih =>
    simp only [List.map_cons, List.mem_cons] at h
    push_neg at h
    simp [lookupKey, Ne.symm h.1, ih h.2]

theorem removeKey_of_lookup_none {α : Type} (l : List (String × α)) (k : String)
    (h : lookupKey l k = none) : removeKey l k = l := by
  induction l with
  | nil => simp [removeKey]
  | cons p rest ih =>
    simp only [lookupKey] at h
    by_cases hp : p.1 = k
    · simp [hp] at h
    · simp only [removeKey, List.filter]
      rw [if_neg hp] at h
      simpa [hp, removeKey] using ih h

theorem spliceOut_of_not_mem (l : List String) (k : String) (h : k ∉ l) :
    spliceOut l k = l := by
  induction l with
  | nil => rfl
  | cons x xs ih =>
    simp only [List.mem_cons] at h
    push_neg at h
    simp [spliceOut, Ne.symm h.1, ih h.2]

theorem spliceOut_sublist (l : List String) (k : String) :
    (spliceOut l k).Sublist l := by
  induction l with
  | nil => simp [spliceOut]
  | cons x xs ih =>
    by_cases h : x = k
    · rw [spliceOut, if_pos h]
      exact List.sublist_cons_self x xs
    · rw [spliceOut, if_neg h]
      exact ih.cons₂ x

theorem nodup_spliceOut (l : List String) (k : String) (h : l.Nodup) :
    (spliceOut l k).Nodup := h.sublist (spliceOut_sublist l k)

theorem not_mem_spliceOut (l : List String) (k : String) (h : l.Nodup) :
    k ∉ spliceOut l k := by
  induction l with
  | nil => simp [spliceOut]
  | cons x xs ih =>
    rw [List.nodup_cons] at h
    by_cases hx : x = k
    · simpa [spliceOut, hx] using hx ▸ h.1
    · simp only [spliceOut, if_neg hx, List.mem_cons]
      push_neg
      exact ⟨fun hc => hx hc.symm, ih h.2⟩

theorem mem_replaceFirst (l : List String) (a b x : String)
    (h : x ∈ replaceFirst l a b) : x ∈ l ∨ x = b := by
  induction l with
  | nil => simp [replaceFirst] at h
  | cons y ys ih =>
    by_cases hy : y = a
    · simp only [replaceFirst, if_pos hy, List.mem_cons] at h
      rcases h with h | h
      · exact Or.inr h
      · exact Or.inl (List.mem_cons_of_mem _ h)
    · simp only [replaceFirst, if_neg hy, List.mem_cons] at h
      rcases h with h | h
      · exact Or.inl (h ▸ List.mem_cons_self _ _)
      · rcases ih h with h' | h'
        · exact Or.inl (List.mem_cons_of_mem _ h')
        · exact Or.inr h'

theorem replaceFirst_self (l : List String) (a : String) :
    replaceFirst l a a = l := by
  induction l with
  | nil => rfl
  | cons y ys ih =>
    by_cases hy : y = a
    · simp [replaceFirst, hy]
    · simp [replaceFirst, hy, ih]

theorem replaceFirst_of_not_mem (l : List String) (a b : String) (h : a ∉ l) :
    replaceFirst l a b = l := by
  induction l with
  | nil => rfl
  | cons y ys ih =>
    simp only [List.mem_cons] at h
    push_neg at h
    simp [replaceFirst, Ne.symm h.1, ih h.2]

theorem nodup_replaceFirst (l : List String) (a b : String)
    (hb : b ∉ l) (h : l.Nodup) : (replaceFirst l a b).Nodup := by
  induction l with
  | nil => simp [replaceFirst]
  | cons y ys ih =>
    rw [List.nodup_cons] at h
    simp only [List.mem_cons] at hb
    push_neg at hb
    by_cases hy : y = a
    · rw [replaceFirst, if_pos hy, List.nodup_cons]
      exact ⟨hb.2, h.2⟩
    · rw [replaceFirst, if_neg hy, List.nodup_cons]
      refine ⟨fun hc => ?_, ih hb.2 h.2⟩
      rcases mem_replaceFirst ys a b y hc with h' | h'
      · exact h.1 h'
      · exact hb.1 h'.symm

theorem mem_jsSetDedupAux :
    ∀ (l seen : List String) (x : String),
      x ∈ jsSetDedupAux seen l ↔ x ∈ l ∧ x ∉ seen := by
  intro l
  induction l with
  | nil => intro seen x; simp [jsSetDedupAux]
  | cons y ys ih =>
    intro seen x
    by_cases hy : y ∈ seen
    · rw [jsSetDedupAux, if_pos hy, ih]
      constructor
      · rintro ⟨hx, hs⟩
        exact ⟨List.mem_cons_of_mem _ hx, hs⟩
      · rintro ⟨hx, hs⟩
        rcases List.mem_cons.mp hx with rfl | hx'
        · exact absurd hy hs
        · exact ⟨hx', hs⟩
    · rw [jsSetDedupAux, if_neg hy]
      simp only [List.mem_cons, ih]
      constructor
      · rintro (rfl | ⟨hx, hs⟩)
        · exact ⟨Or.inl rfl, hy⟩
        · push_neg at hs
          exact ⟨Or.inr hx, hs.2⟩
      · rintro ⟨hxy | hx, hs⟩
        · exact Or.inl hxy
        · by_cases hxy : x = y
          · exact Or.inl hxy
          · refine Or.inr ⟨hx, ?_⟩
            push_neg
            exact ⟨hxy, hs⟩

theorem nodup_jsSetDedupAux :
    ∀ (l seen : List String), (jsSetDedupAux seen l).Nodup := by
  intro l
  induction l with
  | nil => intro seen; simp [jsSetDedupAux]
  | cons y ys ih =>
    intro seen
    by_cases hy : y ∈ seen
    · rw [jsSetDedupAux, if_pos hy]
      exact ih seen
    · rw [jsSetDedupAux, if_neg hy, List.nodup_cons]
      refine ⟨fun hc => ?_, ih (y :: seen)⟩
      exact ((mem_jsSetDedupAux ys (y :: seen) y).mp hc).2
        (List.mem_cons_self y seen)

theorem mem_jsSetDedup (l : List String) (x : String) :
    x ∈ jsSetDedup l ↔ x ∈ l := by
  unfold jsSetDedup
  rw [mem_jsSetDedupAux]
  simp

theorem nodup_jsSetDedup (l : List String) : (jsSetDedup l).Nodup :=
  nodup_jsSetDedupAux l []

/-! ### Component lemmas for the vault operations -/

theorem scripts_enableStartup (s : VaultState) (n : String) :
    (enableStartup s n).scripts = s.scripts := by
  unfold enableStartup
  split <;> rfl

theorem scripts_disableStartup (s : VaultState) (n : String) :
    (disableStartup s n).scripts = s.scripts := rfl

theorem startup_enableStartup_nodup (s : VaultState) (n : String)
    (h : s.startupScripts.Nodup) : (enableStartup s n).startupScripts.Nodup := by
  by_cases hn : n ∈ s.startupScripts
  · simpa [enableStartup, hn] using h
  · unfold enableStartup
    rw [if_neg (by simpa using hn)]
    refine h.append (List.nodup_singleton n) ?_
    intro a ha hb
    simp only [List.mem_singleton] at hb
    exact hn (hb ▸ ha)

theorem startup_disableStartup_nodup (s : VaultState) (n : String)
    (h : s.startupScripts.Nodup) : (disableStartup s n).startupScripts.Nodup :=
  nodup_spliceOut _ _ h

theorem spreadMerge_cons (cur : List (String × ScriptRecord))
    (p : String × ScriptRecord) (rest : List (String × ScriptRecord)) :
    spreadMerge cur (p :: rest) = spreadMerge (setKey cur p.1 p.2) rest := rfl

theorem lookup_spreadMerge_of_none :
    ∀ (imported cur : List (String × ScriptRecord)) (k : String),
      lookupKey imported k = none →
      lookupKey (spreadMerge cur imported) k = lookupKey cur k := by
  intro imported
  induction imported with
  | nil => intro cur k _; rfl
  | cons p rest ih =>
    intro cur k h
    obtain ⟨k1, v1⟩ := p
    simp only [lookupKey] at h
    by_cases hp : k1 = k
    · simp [hp] at h
    · rw [if_neg hp] at h
      rw [spreadMerge_cons, ih _ k h]
      exact lookup_setKey_ne cur k1 k v1 hp

theorem lookup_spreadMerge_of_some :
    ∀ (imported cur : List (String × ScriptRecord)) (k : String)
      (v : ScriptRecord),
      (imported.map Prod.fst).Nodup →
      lookupKey imported k = some v →
      lookupKey (spreadMerge cur imported) k = some v := by
  intro imported
  induction imported with
  | nil => intro cur k v _ h; simp [lookupKey] at h
  | cons p rest ih =>
    intro cur k v hnd h
    obtain ⟨k1, v1⟩ := p
    simp only [List.map_cons, List.nodup_cons] at hnd
    simp only [lookupKey] at h
    rw [spreadMerge_cons]
    by_cases hp : k1 = k
    · rw [if_pos hp] at h
      obtain rfl : v1 = v := Option.some.inj h
      subst hp
      have hk : lookupKey rest k1 = none :=
        lookup_eq_none_of_not_mem_keys rest k1 hnd.1
      rw [lookup_spreadMerge_of_none rest _ k1 hk]
      exact lookup_setKey_self cur k1 v1
    · rw [if_neg hp] at h
      exact ih _ k v hnd.2 h

theorem getScript_saveScript (s : VaultState) (n c d : String) (b : Bool) (t : Nat) :
    getScript (saveScript s n c d b t).2 n = some (saveScript s n c d b t).1 := by
  unfold saveScript getScript
  cases b <;>
    simp [scripts_enableStartup, scripts_disableStartup, lookup_setKey_self]

theorem createdAtStamp_ne_zero (o : Option ScriptRecord) (now : Nat)
    (h : 0 < now) : createdAtStamp o now ≠ 0 := by
  have hn : now ≠ 0 := by omega
  cases o with
  | none => simpa [createdAtStamp] using hn
  | some r =>
    cases hr : r.createdAt with
    | none => simpa [createdAtStamp, jsOrNat, hr] using hn
    | some c =>
      by_cases hc : c = 0
      · simp [createdAtStamp, jsOrNat, hr, hc, hn]
      · simp [createdAtStamp, jsOrNat, hr, hc]

theorem run_ok_eq (exec : String → Except String Unit) (s : VaultState)
    (n : String) : (run exec s n).ok = runOk exec s n := by
  unfold run runOk
  cases hG : getScript s n with
  | none => rfl
  | some r =>
    dsimp only
    cases hE : exec r.code <;> rfl

theorem run_notifs_summary_free (exec : String → Except String Unit)
    (s : VaultState) (n : String) :
    (run exec s n).notifs.countP isInfoNotif = 0 ∧
    (run exec s n).notifs.countP isWarnNotif = 0 := by
  unfold run
  cases hG : getScript s n with
  | none => simp [isInfoNotif, isWarnNotif]
  | some r =>
    dsimp only
    cases hE : exec r.code <;> simp [isInfoNotif, isWarnNotif]

theorem startupStep_char (exec : String → Except String Unit) (s : VaultState)
    (acc : OrchResult) (n : String) :
    (startupStep exec s acc n).successCount
        = acc.successCount + (if runOk exec s n then 1 else 0) ∧
    (startupStep exec s acc n).failCount
        = acc.failCount + (if runOk exec s n then 0 else 1) ∧
    (startupStep exec s acc n).executed
        = acc.executed ++ (if (getScript s n).isSome then [n] else []) ∧
    (startupStep exec s acc n).notifs.countP isInfoNotif
        = acc.notifs.countP isInfoNotif ∧
    (startupStep exec s acc n).notifs.countP isWarnNotif
        = acc.notifs.countP isWarnNotif := by
  unfold startupStep
  cases hG : getScript s n with
  | none =>
    have hok : runOk exec s n = false := by
      unfold runOk
      rw [hG]
    simp [hok]
  | some r =>
    have hns := run_notifs_summary_free exec s n
    dsimp only
    rw [run_ok_eq exec s n]
    cases hO : runOk exec s n <;>
      simp [List.countP_append, hns.1, hns.2]

theorem startupFold_spec (exec : String → Except String Unit) (s : VaultState) :
    ∀ (l : List String) (acc : OrchResult),
      ((l.foldl (startupStep exec s) acc).successCount
          = acc.successCount + l.countP (runOk exec s)) ∧
      ((l.foldl (startupStep exec s) acc).failCount
          = acc.failCount + l.countP (fun n => !runOk exec s n)) ∧
      ((l.foldl (startupStep exec s) acc).executed
          = acc.executed ++ l.filter (fun n => (getScript s n).isSome)) ∧
      ((l.foldl (startupStep exec s) acc).notifs.countP isInfoNotif
          = acc.notifs.countP isInfoNotif) ∧
      ((l.foldl (startupStep exec s) acc).notifs.countP isWarnNotif
          = acc.notifs.countP isWarnNotif) := by
  intro l
  induction l with
  | nil => intro acc; simp
  | cons n rest ih =>
    intro acc
    obtain ⟨c1, c2, c3, c4, c5⟩ := startupStep_char exec s acc n
    obtain ⟨h1, h2, h3, h4, h5⟩ := ih (startupStep exec s acc n)
    simp only [List.foldl_cons, List.countP_cons, List.filter_cons]
    refine ⟨?_, ?_, ?_, ?_, ?_⟩
    · rw [h1, c1]
      cases hO : runOk exec s n
      all_goals simp [hO]
      all_goals omega
    · rw [h2, c2]
      cases hO : runOk exec s n
      all_goals simp [hO]
      all_goals omega
    · rw [h3, c3]
      cases hS : (getScript s n).isSome <;> simp [hS]
    · rw [h4, c4]
    · rw [h5, c5]

theorem deleteScript_eq (s : VaultState) (n : String) :
    deleteScript s n =
      { scripts := removeKey s.scripts n,
        startupScripts := spliceOut s.startupScripts n,
        startupEnabled := s.startupEnabled } := rfl

end ScriptVault

section Claims

open ScriptVault StringTrap

/-- **C1** (corrected) — counterexample to the claim as stated: the claim
says every invocation via the Runner evaluates the code in a scope where a
supplied `context` object is the only explicitly injected binding (exposing
`token`, `actor`, `user`, `scene`).  In the source, `run` builds
`new Function('return (async () => ' + code + ')()')` — the synthesized
function declares no parameters at all and is called with no arguments, so
at this concrete code text there is no injected binding named `context`
(indeed no injected binding whatsoever). -/
theorem C1_counterexample :
    (ScriptVault.synthesize "game.togglePause(true)").params = [] ∧
    "context" ∉ (ScriptVault.synthesize "game.togglePause(true)").params ∧
    ScriptVault.runCallArguments "game.togglePause(true)" = [] :=
  ⟨rfl, by simp [ScriptVault.synthesize], rfl⟩

/-- **C1** (amended): for every script invocation via the Runner, the
synthesized asynchronous unit's body is exactly the record's `code` text
(wrapped in the fixed `return (async () => ... )()` shell), it declares no
parameters, and it is invoked with no arguments — so no context object is
explicitly injected; scripts reach `game`, `ui`, `canvas`, … only as
ambient host globals. -/
theorem C1_no_injected_bindings (code : String) :
    (ScriptVault.synthesize code).params = [] ∧
    ScriptVault.runCallArguments code = [] ∧
    (ScriptVault.synthesize code).body =
      "return (async () => \x7b" ++ code ++ "\n\x7d)()" :=
  ⟨rfl, rfl, rfl⟩

/-- **C3** (confirmed): when the record exists, any error raised during
synthesis or execution of its code (here: the oracle returning
`Except.error msg`) is caught at the `run` boundary — `run` returns
`false`, surfaces one error notification carrying the script identity and
the error's message, and logs the error with the script identity; on
successful completion it returns `true`. -/
theorem C3_runner_error_boundary (exec : String → Except String Unit)
    (s : ScriptVault.VaultState) (name : String)
    (script : ScriptVault.ScriptRecord)
    (h : ScriptVault.getScript s name = some script) :
    (∀ msg, exec script.code = Except.error msg →
      ScriptVault.run exec s name =
        { ok := false,
          notifs := [ScriptVault.Notif.error
            ("Error in script \x22" ++ name ++ "\x22: " ++ msg)],
          logs := ["Script Vault | Executing: " ++ name,
                   "Script Vault | Error in \x22" ++ name ++ "\x22: " ++ msg] }) ∧
    (exec script.code = Except.ok () →
      ScriptVault.run exec s name =
        { ok := true, notifs := [],
          logs := ["Script Vault | Executing: " ++ name,
                   "Script Vault | Completed: " ++ name] }) := by
  constructor
  · intro msg hm
    unfold ScriptVault.run
    rw [h]
    dsimp only
    rw [hm]
  · intro hok
    unfold ScriptVault.run
    rw [h]
    dsimp only
    rw [hok]

/-- Witness for C3 at a concrete store and a concrete failing executor. -/
theorem C3_witness :
    ScriptVault.run (fun _ => Except.error "boom") c3State "Boom" =
      { ok := false,
        notifs := [ScriptVault.Notif.error
          ("Error in script \x22Boom\x22: boom")],
        logs := ["Script Vault | Executing: Boom",
                 "Script Vault | Error in \x22Boom\x22: boom"] } :=
  (C3_runner_error_boundary (fun _ => Except.error "boom") c3State "Boom"
    { name := "Boom", code := "throw new Error(5)", description := "",
      isStartup := false, createdAt := some 1, updatedAt := some 1 }
    (by rfl)).1 "boom" rfl

/-- **C4** (confirmed): `save` then `get` returns the record that `save`
returned, with the saved code; a second save of the same identity (at any
strictly later clock reading — `Date.now()` values are positive and the
claim's "strictly increases" presumes the clock advanced between saves)
preserves `createdAt` and stamps a strictly larger `updatedAt`. -/
theorem C4_save_get_roundtrip (s : ScriptVault.VaultState)
    (name code d : String) (b1 : Bool) (t1 : Nat)
    (code2 d2 : String) (b2 : Bool) (t2 : Nat)
    (h1 : 0 < t1) (h12 : t1 < t2) :
    ScriptVault.getScript (ScriptVault.saveScript s name code d b1 t1).2 name =
        some (ScriptVault.saveScript s name code d b1 t1).1 ∧
    (ScriptVault.saveScript s name code d b1 t1).1.code = code ∧
    ScriptVault.getScript
        (ScriptVault.saveScript (ScriptVault.saveScript s name code d b1 t1).2
          name code2 d2 b2 t2).2 name =
      some (ScriptVault.saveScript (ScriptVault.saveScript s name code d b1 t1).2
        name code2 d2 b2 t2).1 ∧
    (ScriptVault.saveScript (ScriptVault.saveScript s name code d b1 t1).2
        name code2 d2 b2 t2).1.code = code2 ∧
    (ScriptVault.saveScript (ScriptVault.saveScript s name code d b1 t1).2
        name code2 d2 b2 t2).1.createdAt =
      (ScriptVault.saveScript s name code d b1 t1).1.createdAt ∧
    (ScriptVault.saveScript s name code d b1 t1).1.updatedAt = some t1 ∧
    (ScriptVault.saveScript (ScriptVault.saveScript s name code d b1 t1).2
        name code2 d2 b2 t2).1.updatedAt = some t2 ∧
    t1 < t2 := by
  refine ⟨ScriptVault.getScript_saveScript s name code d b1 t1, rfl,
    ScriptVault.getScript_saveScript _ name code2 d2 b2 t2, rfl, ?_, rfl, rfl, h12⟩
  show some (ScriptVault.createdAtStamp
      (ScriptVault.getScript (ScriptVault.saveScript s name code d b1 t1).2 name) t2) =
    some (ScriptVault.createdAtStamp (ScriptVault.getScript s name) t1)
  rw [ScriptVault.getScript_saveScript s name code d b1 t1]
  have hne := ScriptVault.createdAtStamp_ne_zero (ScriptVault.getScript s name) t1 h1
  show some (ScriptVault.jsOrNat
      (some (ScriptVault.createdAtStamp (ScriptVault.getScript s name) t1)) t2) = _
  simp [ScriptVault.jsOrNat, hne]

/-- Witness for C4 at a concrete initial state, identity and clock
readings. -/
theorem C4_witness :
    ScriptVault.getScript
        (ScriptVault.saveScript
          (ScriptVault.saveScript ⟨[], [], true⟩ "Heal" "ctx()" "" false 10).2
          "Heal" "ctx2()" "" true 20).2 "Heal" =
      some (ScriptVault.saveScript
        (ScriptVault.saveScript ⟨[], [], true⟩ "Heal" "ctx()" "" false 10).2
        "Heal" "ctx2()" "" true 20).1 ∧
    (ScriptVault.saveScript
        (ScriptVault.saveScript ⟨[], [], true⟩ "Heal" "ctx()" "" false 10).2
        "Heal" "ctx2()" "" true 20).1.createdAt =
      (ScriptVault.saveScript ⟨[], [], true⟩ "Heal" "ctx()" "" false 10).1.createdAt :=
  ⟨(C4_save_get_roundtrip ⟨[], [], true⟩ "Heal" "ctx()" "" false 10 "ctx2()" "" true 20
      (by decide) (by decide)).2.2.1,
   (C4_save_get_roundtrip ⟨[], [], true⟩ "Heal" "ctx()" "" false 10 "ctx2()" "" true 20
      (by decide) (by decide)).2.2.2.2.1⟩

/-- **C7** (corrected) — counterexample to the claim as stated: deleting an
identity that has no record in the Store but still has a (dangling)
Startup Registry entry is not a no-op — `deleteScript` always calls
`disableStartup`, which prunes the dangling entry, so the registry is
observably changed. -/
theorem C7_counterexample :
    ScriptVault.getScript ⟨[], ["Ghost"], true⟩ "Ghost" = none ∧
    (ScriptVault.deleteScript ⟨[], ["Ghost"], true⟩ "Ghost").startupScripts ≠
      (⟨[], ["Ghost"], true⟩ : ScriptVault.VaultState).startupScripts := by
  decide

/-- **C7** (amended): `deleteScript` removes the record from the Store and
removes the identity from the (duplicate-free) Startup Registry, raising no
error (it is a total operation).  When the identity has no record, the
Store is left unchanged; the whole state is unchanged only when the
identity is additionally absent from the registry — a dangling registry
entry is still pruned. -/
theorem C7_delete_removes_both (s : ScriptVault.VaultState) (n : String)
    (hnd : s.startupScripts.Nodup) :
    ScriptVault.getScript (ScriptVault.deleteScript s n) n = none ∧
    n ∉ (ScriptVault.deleteScript s n).startupScripts ∧
    (ScriptVault.getScript s n = none →
      (ScriptVault.deleteScript s n).scripts = s.scripts) ∧
    (ScriptVault.getScript s n = none → n ∉ s.startupScripts →
      ScriptVault.deleteScript s n = s) := by
  refine ⟨?_, ?_, ?_, ?_⟩
  · rw [ScriptVault.deleteScript_eq]
    exact ScriptVault.lookup_removeKey_self s.scripts n
  · rw [ScriptVault.deleteScript_eq]
    exact ScriptVault.not_mem_spliceOut s.startupScripts n hnd
  · intro h
    rw [ScriptVault.deleteScript_eq]
    exact ScriptVault.removeKey_of_lookup_none s.scripts n h
  · intro h hmem
    rw [ScriptVault.deleteScript_eq,
      ScriptVault.removeKey_of_lookup_none s.scripts n h,
      ScriptVault.spliceOut_of_not_mem s.startupScripts n hmem]

/-- Witness for C7 at a concrete state containing the record and a
registry entry. -/
theorem C7_witness :
    ScriptVault.getScript
        (ScriptVault.deleteScript
          ⟨[("A", { name := "A", code := "1", description := "",
                    isStartup := true, createdAt := some 1, updatedAt := some 1 })],
            ["A"], true⟩ "A") "A" = none ∧
    "A" ∉ (ScriptVault.deleteScript
        ⟨[("A", { name := "A", code := "1", description := "",
                  isStartup := true, createdAt := some 1, updatedAt := some 1 })],
          ["A"], true⟩ "A").startupScripts :=
  ⟨(C7_delete_removes_both _ "A" (by decide)).1,
   (C7_delete_removes_both _ "A" (by decide)).2.1⟩

/-- **C8** (confirmed): in the paralyze branch of the trap engine, with a
resolvable actor, a saving-throw total exactly equal to the effective save
DC yields the "resisted" notification and does not apply the paralyzed
effect; the paralyzed effect is applied exactly when the total is strictly
below the DC. -/
theorem C8_save_dc_tie (flags : StringTrap.TrapFlags)
    (tokenDoc : StringTrap.TokenDoc) (tokens : List StringTrap.TokenPlaceable)
    (tk : StringTrap.TokenPlaceable) (a : StringTrap.ActorRef) (saveTotal : Int)
    (hc : flags.condition = some "paralyzed")
    (htk : StringTrap.tokensGet tokens tokenDoc.id = some tk)
    (ha : tk.actor = some a) :
    (saveTotal = StringTrap.effectiveSaveDC flags.saveDC →
      StringTrap.TrapAction.notifyInfo
          (tokenDoc.name ++ " resisted! (rolled " ++ toString saveTotal ++ ")")
        ∈ StringTrap.paralyzeActions flags tokenDoc tokens saveTotal ∧
      StringTrap.TrapAction.addEffect tk.id "Paralyzed (String Trap)" none
        ∉ StringTrap.paralyzeActions flags tokenDoc tokens saveTotal) ∧
    (StringTrap.TrapAction.addEffect tk.id "Paralyzed (String Trap)" none
        ∈ StringTrap.paralyzeActions flags tokenDoc tokens saveTotal
      ↔ saveTotal < StringTrap.effectiveSaveDC flags.saveDC) := by
  by_cases hlt : saveTotal < StringTrap.effectiveSaveDC flags.saveDC
  · constructor
    · intro heq
      omega
    · simp [StringTrap.paralyzeActions, hc, htk, ha, if_pos hlt, hlt]
  · constructor
    · intro _
      simp [StringTrap.paralyzeActions, hc, htk, ha, if_neg hlt]
    · simp [StringTrap.paralyzeActions, hc, htk, ha, if_neg hlt, hlt]

/-- Witness for C8: a roll of exactly 15 against DC 15 resists and is not
paralyzed. -/
theorem C8_witness :
    StringTrap.TrapAction.notifyInfo
        (c8TokenDoc.name ++ " resisted! (rolled " ++ toString (15 : Int) ++ ")")
      ∈ StringTrap.paralyzeActions c8Flags c8TokenDoc [c8Token] 15 ∧
    StringTrap.TrapAction.addEffect c8Token.id "Paralyzed (String Trap)" none
      ∉ StringTrap.paralyzeActions c8Flags c8TokenDoc [c8Token] 15 :=
  (C8_save_dc_tie c8Flags c8TokenDoc [c8Token] c8Token
    { name := "Hero", effects := [] } 15 rfl (by decide) rfl).1 (by decide)

/-- **C10** (confirmed): a token-update event that changes neither
coordinate, and any movement or combat-turn event on a non-GM client,
produce no observable action: the containment map is unchanged and no
damage, condition, message, notification or trap deactivation is
emitted. -/
theorem C10_hook_guards (gm : Bool) (gs : ℚ)
    (tiles : List StringTrap.TileDoc) (tokens : List StringTrap.TokenPlaceable)
    (tokenDoc : StringTrap.TokenDoc) (updX updY : Option ℚ)
    (damageRoll : String → Int) (saveTotal : Int)
    (st : List (String × Bool)) (combat : StringTrap.Combat) :
    (updX = none → updY = none →
      StringTrap.updateTokenHook gm gs tiles tokens tokenDoc updX updY
        damageRoll saveTotal st = (st, [])) ∧
    (gm = false →
      StringTrap.updateTokenHook gm gs tiles tokens tokenDoc updX updY
        damageRoll saveTotal st = (st, [])) ∧
    (gm = false →
      StringTrap.combatTurnHook gm combat tokens damageRoll = []) := by
  refine ⟨?_, ?_, ?_⟩
  · intro hx hy
    subst hx
    subst hy
    simp [StringTrap.updateTokenHook]
  · intro h
    subst h
    simp [StringTrap.updateTokenHook]
  · intro h
    subst h
    simp [StringTrap.combatTurnHook]

/-- Witness for C10 at concrete inputs: no coordinate change on one call,
non-GM on the others. -/
theorem C10_witness :
    StringTrap.updateTokenHook true 1 [] [c8Token] c8TokenDoc none none
        (fun _ => 0) 0 [("k", true)] = ([("k", true)], []) ∧
    StringTrap.updateTokenHook false 1 [] [c8Token] c8TokenDoc (some 3) none
        (fun _ => 0) 0 [] = ([], []) ∧
    StringTrap.combatTurnHook false ⟨true, none⟩ [c8Token] (fun _ => 0) = [] :=
  ⟨(C10_hook_guards true 1 [] [c8Token] c8TokenDoc none none (fun _ => 0) 0
      [("k", true)] ⟨true, none⟩).1 rfl rfl,
   (C10_hook_guards false 1 [] [c8Token] c8TokenDoc (some 3) none (fun _ => 0) 0
      [] ⟨true, none⟩).2.1 rfl,
   (C10_hook_guards false 1 [] [c8Token] c8TokenDoc (some 3) none (fun _ => 0) 0
      [] ⟨true, none⟩).2.2 rfl⟩

/-- **C5** (corrected) — counterexample to the claim as stated: with "A"
and "B" both in the Startup Registry, `renameScript "A" "B"` patches the
registry entry for "A" to "B" in place without checking that "B" is
already registered, leaving the duplicate registry `["B", "B"]`. -/
theorem C5_counterexample :
    c5State.startupScripts.Nodup ∧
    ¬(ScriptVault.renameScript c5State "A" "B").startupScripts.Nodup := by
  decide

/-- **C5** (amended): the no-duplicates invariant of the Startup Registry
is preserved by `enableStartup`, `disableStartup`, `toggleStartup`,
`saveScript`, `deleteScript` and `importScripts`; `renameScript` preserves
it when the new identity equals the old or is not already registered, but
renaming a registered identity onto another registered identity introduces
a duplicate. -/
theorem C5_registry_nodup_invariant (s : ScriptVault.VaultState)
    (hnd : s.startupScripts.Nodup) :
    (∀ n, (ScriptVault.enableStartup s n).startupScripts.Nodup) ∧
    (∀ n, (ScriptVault.disableStartup s n).startupScripts.Nodup) ∧
    (∀ n, ((ScriptVault.toggleStartup s n).2).startupScripts.Nodup) ∧
    (∀ name code d b t,
      ((ScriptVault.saveScript s name code d b t).2).startupScripts.Nodup) ∧
    (∀ n, (ScriptVault.deleteScript s n).startupScripts.Nodup) ∧
    (∀ payload,
      ((ScriptVault.importScripts s payload).2.1).startupScripts.Nodup) ∧
    (∀ oldName newName, (newName = oldName ∨ newName ∉ s.startupScripts) →
      (ScriptVault.renameScript s oldName newName).startupScripts.Nodup) := by
  refine ⟨?_, ?_, ?_, ?_, ?_, ?_, ?_⟩
  · exact fun n => ScriptVault.startup_enableStartup_nodup s n hnd
  · exact fun n => ScriptVault.startup_disableStartup_nodup s n hnd
  · intro n
    by_cases h : ScriptVault.isStartupEnabled s n
    · simpa [ScriptVault.toggleStartup, h] using
        ScriptVault.startup_disableStartup_nodup s n hnd
    · simpa [ScriptVault.toggleStartup, h] using
        ScriptVault.startup_enableStartup_nodup s n hnd
  · intro name code d b t
    unfold ScriptVault.saveScript
    cases b
    · exact ScriptVault.startup_disableStartup_nodup _ name hnd
    · exact ScriptVault.startup_enableStartup_nodup _ name hnd
  · exact fun n => ScriptVault.nodup_spliceOut _ _ hnd
  · intro payload
    cases payload with
    | error msg => exact hnd
    | ok data =>
      cases hT : data.startupScripts with
      | none =>
        cases hC : data.scripts <;>
          simp [ScriptVault.importScripts, hC, hT] <;>
          exact hnd
      | some f =>
        cases f with
        | list l =>
          cases hC : data.scripts <;>
            simp [ScriptVault.importScripts, hC, hT] <;>
            exact ScriptVault.nodup_jsSetDedup _
        | notIterable msg =>
          cases hC : data.scripts <;>
            simp [ScriptVault.importScripts, hC, hT] <;>
            exact hnd
  · intro oldName newName hOr
    unfold ScriptVault.renameScript
    cases hL : ScriptVault.lookupKey s.scripts oldName with
    | none => exact hnd
    | some r =>
      dsimp only
      by_cases hct : s.startupScripts.contains oldName
      · rw [if_pos hct]
        rcases hOr with heq | hmem
        · rw [heq, ScriptVault.replaceFirst_self]
          exact hnd
        · exact ScriptVault.nodup_replaceFirst _ _ _ hmem hnd
      · rw [if_neg hct]
        exact hnd

/-- Witness for C5 at concrete states, exercising `enableStartup` and the
guarded `renameScript` case. -/
theorem C5_witness :
    (ScriptVault.enableStartup c5State "C").startupScripts.Nodup ∧
    (ScriptVault.renameScript c5State "A" "Z").startupScripts.Nodup :=
  ⟨(C5_registry_nodup_invariant c5State (by decide)).1 "C",
   (C5_registry_nodup_invariant c5State (by decide)).2.2.2.2.2.2 "A" "Z"
     (Or.inr (by decide))⟩

/-- **C6** (corrected) — counterexample to the claim as stated: the `try`
wraps the whole import body, so a payload that parses, carries a valid
scripts mapping, and has a truthy non-iterable `startupScripts` field
throws at the `[...data.startupScripts]` spread only after the scripts
merge was already persisted.  The error is caught and reported (the call
returns `false`), yet the Store is changed — a partial merge on a
malformed payload, which the claim denies. -/
theorem C6_counterexample :
    (ScriptVault.importScripts c2State (Except.ok c6BadData)).1 = false ∧
    (ScriptVault.importScripts c2State (Except.ok c6BadData)).2.2 =
      [ScriptVault.Notif.error
        ("Failed to import scripts: " ++ "data.startupScripts is not iterable")] ∧
    (ScriptVault.importScripts c2State (Except.ok c6BadData)).2.1.scripts ≠
      c2State.scripts := by
  decide

/-- **C6** (amended): import merges rather than replaces — a colliding
identity shallowly overwrites the existing record and non-colliding ones
are kept, and an iterable imported startup sequence is set-unioned with the
existing one without duplicates.  A payload that fails to parse is caught
before any mutation and aborts with the state exactly unchanged; but the
catch wraps the whole operation, so a parsed payload whose
`startupScripts` field is truthy yet non-iterable is caught and reported
only after the scripts merge persisted — the registry is unchanged while
the Store keeps the partial merge (the whole state is unchanged in that
case only when the payload carried no scripts mapping). -/
theorem C6_import_merge (s : ScriptVault.VaultState) :
    (∀ msg, ScriptVault.importScripts s (Except.error msg) =
      (false, s,
        [ScriptVault.Notif.error ("Failed to import scripts: " ++ msg)])) ∧
    (∀ (data : ScriptVault.ImportData)
        (imported : List (String × ScriptVault.ScriptRecord)),
      data.scripts = some imported →
      (imported.map Prod.fst).Nodup →
      (∀ k v, ScriptVault.lookupKey imported k = some v →
        ScriptVault.getScript (ScriptVault.importScripts s (Except.ok data)).2.1 k
          = some v) ∧
      (∀ k, ScriptVault.lookupKey imported k = none →
        ScriptVault.getScript (ScriptVault.importScripts s (Except.ok data)).2.1 k
          = ScriptVault.getScript s k)) ∧
    (∀ (data : ScriptVault.ImportData) (importedStartup : List String),
      data.startupScripts = some (ScriptVault.JsStartupField.list importedStartup) →
      ((ScriptVault.importScripts s (Except.ok data)).2.1).startupScripts.Nodup ∧
      (∀ x,
        x ∈ ((ScriptVault.importScripts s (Except.ok data)).2.1).startupScripts ↔
          x ∈ s.startupScripts ∨ x ∈ importedStartup)) ∧
    (∀ (data : ScriptVault.ImportData) (msg : String),
      data.startupScripts = some (ScriptVault.JsStartupField.notIterable msg) →
      (ScriptVault.importScripts s (Except.ok data)).1 = false ∧
      (ScriptVault.importScripts s (Except.ok data)).2.2 =
        [ScriptVault.Notif.error ("Failed to import scripts: " ++ msg)] ∧
      ((ScriptVault.importScripts s (Except.ok data)).2.1).startupScripts
          = s.startupScripts ∧
      (∀ imported, data.scripts = some imported →
        (ScriptVault.importScripts s (Except.ok data)).2.1.scripts
          = ScriptVault.spreadMerge s.scripts imported) ∧
      (data.scripts = none →
        (ScriptVault.importScripts s (Except.ok data)).2.1 = s)) := by
  refine ⟨fun msg => rfl, ?_, ?_, ?_⟩
  · intro data imported hS hnd
    have hscripts :
        (ScriptVault.importScripts s (Except.ok data)).2.1.scripts =
          ScriptVault.spreadMerge s.scripts imported := by
      cases hT : data.startupScripts with
      | none => simp [ScriptVault.importScripts, hS, hT]
      | some f => cases f <;> simp [ScriptVault.importScripts, hS, hT]
    constructor
    · intro k v h
      unfold ScriptVault.getScript
      rw [hscripts]
      exact ScriptVault.lookup_spreadMerge_of_some imported s.scripts k v hnd h
    · intro k h
      unfold ScriptVault.getScript
      rw [hscripts]
      exact ScriptVault.lookup_spreadMerge_of_none imported s.scripts k h
  · intro data importedStartup hT
    have hstartup :
        ((ScriptVault.importScripts s (Except.ok data)).2.1).startupScripts =
          ScriptVault.jsSetDedup (s.startupScripts ++ importedStartup) := by
      cases hC : data.scripts <;>
        simp [ScriptVault.importScripts, hC, hT]
    constructor
    · rw [hstartup]
      exact ScriptVault.nodup_jsSetDedup _
    · intro x
      rw [hstartup, ScriptVault.mem_jsSetDedup, List.mem_append]
  · intro data msg hT
    cases hC : data.scripts with
    | none =>
      refine ⟨?_, ?_, ?_, ?_, ?_⟩ <;>
        simp [ScriptVault.importScripts, hC, hT]
    | some imported =>
      refine ⟨?_, ?_, ?_, ?_, ?_⟩ <;>
        simp [ScriptVault.importScripts, hC, hT]

/-- Witness for C6: a parse failure leaves the concrete state untouched;
the well-formed payload overwrites the colliding "Heal" record and yields
a duplicate-free startup union; the non-iterable-startup payload is
reported as failed while the scripts merge persists and the registry stays
put. -/
theorem C6_witness :
    ScriptVault.importScripts c2State (Except.error "bad") =
      (false, c2State,
        [ScriptVault.Notif.error ("Failed to import scripts: " ++ "bad")]) ∧
    ScriptVault.getScript
        (ScriptVault.importScripts c2State (Except.ok c6Data)).2.1 "Heal" =
      some c6NewHeal ∧
    ((ScriptVault.importScripts c2State (Except.ok c6Data)).2.1).startupScripts.Nodup ∧
    (ScriptVault.importScripts c2State (Except.ok c6BadData)).2.1.scripts
        = ScriptVault.spreadMerge c2State.scripts [("Fresh", c6Fresh)] ∧
    ((ScriptVault.importScripts c2State (Except.ok c6BadData)).2.1).startupScripts
        = c2State.startupScripts :=
  ⟨(C6_import_merge c2State).1 "bad",
   ((C6_import_merge c2State).2.1 c6Data [("Heal", c6NewHeal), ("Fresh", c6Fresh)]
      rfl (by decide)).1 "Heal" c6NewHeal (by decide),
   ((C6_import_merge c2State).2.2.1 c6Data ["Ghost", "New"] rfl).1,
   ((C6_import_merge c2State).2.2.2 c6BadData
      "data.startupScripts is not iterable" rfl).2.2.2.1
     [("Fresh", c6Fresh)] rfl,
   ((C6_import_merge c2State).2.2.2 c6BadData
      "data.startupScripts is not iterable" rfl).2.2.1⟩

/-- **C2** (confirmed): on a host-ready event, a non-GM user or a false
`startupEnabled` flag means zero scripts run and nothing is emitted;
otherwise the registry is walked sequentially in registration order (the
executed list is exactly the in-order sublist of entries whose record
exists), a dangling identity counts as a failure without aborting the
loop, and after the loop exactly one success summary appears when the
success tally is positive and exactly one failure summary when the failure
tally is positive. -/
theorem C2_startup_orchestrator (exec : String → Except String Unit)
    (gm : Bool) (s : ScriptVault.VaultState) :
    ((gm = false ∨ s.startupEnabled = false) →
      ScriptVault.runStartupScripts exec gm s =
        { executed := [], successCount := 0, failCount := 0, notifs := [] }) ∧
    (gm = true → s.startupEnabled = true →
      (ScriptVault.runStartupScripts exec gm s).executed
          = s.startupScripts.filter (fun n => (ScriptVault.getScript s n).isSome) ∧
      (ScriptVault.runStartupScripts exec gm s).successCount
          = s.startupScripts.countP (ScriptVault.runOk exec s) ∧
      (ScriptVault.runStartupScripts exec gm s).failCount
          = s.startupScripts.countP (fun n => !ScriptVault.runOk exec s n) ∧
      (ScriptVault.runStartupScripts exec gm s).notifs.countP ScriptVault.isInfoNotif
          = (if 0 < (ScriptVault.runStartupScripts exec gm s).successCount
             then 1 else 0) ∧
      (ScriptVault.runStartupScripts exec gm s).notifs.countP ScriptVault.isWarnNotif
          = (if 0 < (ScriptVault.runStartupScripts exec gm s).failCount
             then 1 else 0) ∧
      (0 < (ScriptVault.runStartupScripts exec gm s).successCount →
        ScriptVault.loadedSummary (ScriptVault.runStartupScripts exec gm s).successCount
          ∈ (ScriptVault.runStartupScripts exec gm s).notifs) ∧
      (0 < (ScriptVault.runStartupScripts exec gm s).failCount →
        ScriptVault.failedSummary (ScriptVault.runStartupScripts exec gm s).failCount
          ∈ (ScriptVault.runStartupScripts exec gm s).notifs)) := by
  constructor
  · rintro (h | h) <;> simp [ScriptVault.runStartupScripts, h]
  · intro hgm hen
    subst hgm
    cases hL : s.startupScripts with
    | nil =>
      have hunf : ScriptVault.runStartupScripts exec true s =
          { executed := [], successCount := 0, failCount := 0, notifs := [] } := by
        simp [ScriptVault.runStartupScripts, hen, hL]
      rw [hunf]
      simp
    | cons a rest =>
      obtain ⟨f1, f2, f3, f4, f5⟩ :=
        ScriptVault.startupFold_spec exec s (a :: rest)
          { executed := [], successCount := 0, failCount := 0, notifs := [] }
      have hunf : ScriptVault.runStartupScripts exec true s =
          (let r := (a :: rest).foldl (ScriptVault.startupStep exec s)
              { executed := [], successCount := 0, failCount := 0, notifs := [] }
           { r with notifs := r.notifs
              ++ (if r.successCount > 0
                  then [ScriptVault.loadedSummary r.successCount] else [])
              ++ (if r.failCount > 0
                  then [ScriptVault.failedSummary r.failCount] else []) }) := by
        simp [ScriptVault.runStartupScripts, hen, hL]
      rw [hunf]
      dsimp only
      have cInfoL : ∀ c : Nat,
          List.countP ScriptVault.isInfoNotif
            (if c > 0 then [ScriptVault.loadedSummary c] else [])
            = if 0 < c then 1 else 0 := by
        intro c
        by_cases hc : c > 0 <;>
          simp [hc, ScriptVault.loadedSummary, ScriptVault.isInfoNotif]
      have cInfoF : ∀ c : Nat,
          List.countP ScriptVault.isInfoNotif
            (if c > 0 then [ScriptVault.failedSummary c] else []) = 0 := by
        intro c
        by_cases hc : c > 0 <;>
          simp [hc, ScriptVault.failedSummary, ScriptVault.isInfoNotif]
      have cWarnL : ∀ c : Nat,
          List.countP ScriptVault.isWarnNotif
            (if c > 0 then [ScriptVault.loadedSummary c] else []) = 0 := by
        intro c
        by_cases hc : c > 0 <;>
          simp [hc, ScriptVault.loadedSummary, ScriptVault.isWarnNotif]
      have cWarnF : ∀ c : Nat,
          List.countP ScriptVault.isWarnNotif
            (if c > 0 then [ScriptVault.failedSummary c] else [])
            = if 0 < c then 1 else 0 := by
        intro c
        by_cases hc : c > 0 <;>
          simp [hc, ScriptVault.failedSummary, ScriptVault.isWarnNotif]
      refine ⟨by simpa using f3, by simpa using f1, by simpa using f2, ?_, ?_, ?_, ?_⟩
      · simp only [List.countP_append, f4, cInfoL, cInfoF, List.countP_nil]
        simp
      · simp only [List.countP_append, f5, cWarnL, cWarnF, List.countP_nil]
        simp
      · intro hpos
        simp only [List.mem_append]
        refine Or.inl (Or.inr ?_)
        rw [if_pos hpos]
        exact List.mem_singleton_self _
      · intro hpos
        simp only [List.mem_append]
        refine Or.inr ?_
        rw [if_pos hpos]
        exact List.mem_singleton_self _

/-- Witness for C2: the spec scenario — store `{Heal}`, registry
`["Heal", "Ghost"]`, startup enabled, GM client, successful executor —
tallies one success and one failure and emits both summaries. -/
theorem C2_witness :
    (ScriptVault.runStartupScripts (fun _ => Except.ok ()) true c2State).successCount
        = 1 ∧
    (ScriptVault.runStartupScripts (fun _ => Except.ok ()) true c2State).failCount
        = 1 ∧
    ScriptVault.loadedSummary 1
      ∈ (ScriptVault.runStartupScripts (fun _ => Except.ok ()) true c2State).notifs ∧
    ScriptVault.failedSummary 1
      ∈ (ScriptVault.runStartupScripts (fun _ => Except.ok ()) true c2State).notifs := by
  have h := (C2_startup_orchestrator (fun _ => Except.ok ()) true c2State).2 rfl rfl
  have hs : (ScriptVault.runStartupScripts (fun _ => Except.ok ()) true
      c2State).successCount = 1 := by
    rw [h.2.1]
    decide
  have hf : (ScriptVault.runStartupScripts (fun _ => Except.ok ()) true
      c2State).failCount = 1 := by
    rw [h.2.2.1]
    decide
  refine ⟨hs, hf, ?_, ?_⟩
  · have := h.2.2.2.2.2.1 (by rw [hs]; decide)
    rwa [hs] at this
  · have := h.2.2.2.2.2.2 (by rw [hf]; decide)
    rwa [hf] at this

/-- **C9** (confirmed): the landmine inclusion test selects exactly the
tokens whose centre lies at Euclidean distance ≤ the effective radius
(`(explosionSize * gridSize) / 2 * 1.5`) from the trap tile's centre:
three tokens at distances R−1, R and R+1 give inclusion of exactly the
first two (boundary inclusive), and the AoE branch damages exactly those
two (given they have actors), posting one aggregate message with hit
count 2. -/
theorem C9_landmine_boundary (gs : ℚ) (tile : StringTrap.TileDoc) (sz : ℚ)
    (t1 t2 t3 : StringTrap.TokenPlaceable)
    (h1 : Real.sqrt
        (((StringTrap.tokenCenterX gs t1 - StringTrap.tileCenterX tile : ℚ) : ℝ) ^ 2
          + ((StringTrap.tokenCenterY gs t1 - StringTrap.tileCenterY tile : ℚ) : ℝ) ^ 2)
        = ((StringTrap.explosionRadius sz gs : ℚ) : ℝ) - 1)
    (h2 : Real.sqrt
        (((StringTrap.tokenCenterX gs t2 - StringTrap.tileCenterX tile : ℚ) : ℝ) ^ 2
          + ((StringTrap.tokenCenterY gs t2 - StringTrap.tileCenterY tile : ℚ) : ℝ) ^ 2)
        = ((StringTrap.explosionRadius sz gs : ℚ) : ℝ))
    (h3 : Real.sqrt
        (((StringTrap.tokenCenterX gs t3 - StringTrap.tileCenterX tile : ℚ) : ℝ) ^ 2
          + ((StringTrap.tokenCenterY gs t3 - StringTrap.tileCenterY tile : ℚ) : ℝ) ^ 2)
        = ((StringTrap.explosionRadius sz gs : ℚ) : ℝ) + 1)
    (ha1 : t1.actor.isSome) (ha2 : t2.actor.isSome) :
    StringTrap.inBlast gs (StringTrap.tileCenterX tile) (StringTrap.tileCenterY tile)
      (StringTrap.explosionRadius sz gs) t1 ∧
    StringTrap.inBlast gs (StringTrap.tileCenterX tile) (StringTrap.tileCenterY tile)
      (StringTrap.explosionRadius sz gs) t2 ∧
    ¬StringTrap.inBlast gs (StringTrap.tileCenterX tile) (StringTrap.tileCenterY tile)
      (StringTrap.explosionRadius sz gs) t3 ∧
    StringTrap.landmineHitTokens gs tile sz [t1, t2, t3] = [t1, t2] ∧
    (∀ (flags : StringTrap.TrapFlags) (total : Int),
      StringTrap.landmineActions gs tile flags sz total [t1, t2, t3]
        = [StringTrap.TrapAction.applyDamage t1.id total,
           StringTrap.TrapAction.applyDamage t2.id total,
           StringTrap.TrapAction.chat
             ("<div style=\x22text-align:center;padding:10px;background:rgba(255,100,0,0.3);border:2px solid #ff4400;\x22><strong>💥 LANDMINE EXPLODES!</strong><br/>"
               ++ toString (2 : Nat) ++ " hit for " ++ toString total ++ " "
               ++ flags.damageType ++ "!</div>")]) := by
  have hb1 : StringTrap.inBlast gs (StringTrap.tileCenterX tile)
      (StringTrap.tileCenterY tile) (StringTrap.explosionRadius sz gs) t1 := by
    unfold StringTrap.inBlast
    rw [h1]
    linarith
  have hb2 : StringTrap.inBlast gs (StringTrap.tileCenterX tile)
      (StringTrap.tileCenterY tile) (StringTrap.explosionRadius sz gs) t2 := by
    unfold StringTrap.inBlast
    rw [h2]
  have hb3 : ¬StringTrap.inBlast gs (StringTrap.tileCenterX tile)
      (StringTrap.tileCenterY tile) (StringTrap.explosionRadius sz gs) t3 := by
    intro hcon
    unfold StringTrap.inBlast at hcon
    rw [h3] at hcon
    linarith
  have hfilter : StringTrap.landmineHitTokens gs tile sz [t1, t2, t3] = [t1, t2] := by
    unfold StringTrap.landmineHitTokens
    simp [List.filter, decide_eq_true hb1, decide_eq_true hb2,
      decide_eq_false hb3]
  refine ⟨hb1, hb2, hb3, hfilter, ?_⟩
  intro flags total
  simp only [StringTrap.landmineActions]
  rw [hfilter]
  simp [ha1, ha2]

/-- Witness for C9: grid size 2, explosion size 4 (effective radius 6),
tile centred at the origin, tokens at distances 5, 6 and 7. -/
theorem C9_witness :
    StringTrap.landmineHitTokens 2 c9Tile 4 [c9T1, c9T2, c9T3] = [c9T1, c9T2] := by
  have e1x : StringTrap.tokenCenterX 2 c9T1 - StringTrap.tileCenterX c9Tile
      = (5 : ℚ) := by
    simp [StringTrap.tokenCenterX, StringTrap.tileCenterX, c9T1, c9Tile]
  have e2x : StringTrap.tokenCenterX 2 c9T2 - StringTrap.tileCenterX c9Tile
      = (6 : ℚ) := by
    simp [StringTrap.tokenCenterX, StringTrap.tileCenterX, c9T2, c9Tile]
  have e3x : StringTrap.tokenCenterX 2 c9T3 - StringTrap.tileCenterX c9Tile
      = (7 : ℚ) := by
    simp [StringTrap.tokenCenterX, StringTrap.tileCenterX, c9T3, c9Tile]
  have e1y : StringTrap.tokenCenterY 2 c9T1 - StringTrap.tileCenterY c9Tile
      = (0 : ℚ) := by
    simp [StringTrap.tokenCenterY, StringTrap.tileCenterY, c9T1, c9Tile]
  have e2y : StringTrap.tokenCenterY 2 c9T2 - StringTrap.tileCenterY c9Tile
      = (0 : ℚ) := by
    simp [StringTrap.tokenCenterY, StringTrap.tileCenterY, c9T2, c9Tile]
  have e3y : StringTrap.tokenCenterY 2 c9T3 - StringTrap.tileCenterY c9Tile
      = (0 : ℚ) := by
    simp [StringTrap.tokenCenterY, StringTrap.tileCenterY, c9T3, c9Tile]
  have eR : StringTrap.explosionRadius 4 2 = (6 : ℚ) := by
    norm_num [StringTrap.explosionRadius]
  have sq : ∀ q : ℚ, 0 ≤ q →
      Real.sqrt (((q : ℚ) : ℝ) ^ 2 + ((0 : ℚ) : ℝ) ^ 2) = ((q : ℚ) : ℝ) := by
    intro q hq
    have hz : (((q : ℚ) : ℝ) ^ 2 + ((0 : ℚ) : ℝ) ^ 2) = ((q : ℚ) : ℝ) ^ 2 := by
      push_cast
      ring
    rw [hz, Real.sqrt_sq (by exact_mod_cast hq)]
  have p1 : Real.sqrt
      (((StringTrap.tokenCenterX 2 c9T1 - StringTrap.tileCenterX c9Tile : ℚ) : ℝ) ^ 2
        + ((StringTrap.tokenCenterY 2 c9T1 - StringTrap.tileCenterY c9Tile : ℚ) : ℝ) ^ 2)
      = ((StringTrap.explosionRadius 4 2 : ℚ) : ℝ) - 1 := by
    rw [e1x, e1y, eR, sq 5 (by norm_num)]
    norm_num
  have p2 : Real.sqrt
      (((StringTrap.tokenCenterX 2 c9T2 - StringTrap.tileCenterX c9Tile : ℚ) : ℝ) ^ 2
        + ((StringTrap.tokenCenterY 2 c9T2 - StringTrap.tileCenterY c9Tile : ℚ) : ℝ) ^ 2)
      = ((StringTrap.explosionRadius 4 2 : ℚ) : ℝ) := by
    rw [e2x, e2y, eR, sq 6 (by norm_num)]
  have p3 : Real.sqrt
      (((StringTrap.tokenCenterX 2 c9T3 - StringTrap.tileCenterX c9Tile : ℚ) : ℝ) ^ 2
        + ((StringTrap.tokenCenterY 2 c9T3 - StringTrap.tileCenterY c9Tile : ℚ) : ℝ) ^ 2)
      = ((StringTrap.explosionRadius 4 2 : ℚ) : ℝ) + 1 := by
    rw [e3x, e3y, eR, sq 7 (by norm_num)]
    norm_num
  exact (C9_landmine_boundary 2 c9Tile 4 c9T1 c9T2 c9T3 p1 p2 p3
    (by decide) (by decide)).2.2.2.1

end Claims
